import Mathlib

/-!
Verification development for the information-hub RAG service.

The definitions below are a shallow embedding of the repository code:
  - app/information_loader.py  (InformationLoader)
  - app/rag_pipeline.py        (ProductionRAGPipeline)
  - app/observability.py       (Prometheus metrics and the track_metrics decorator)
  - app/main.py                (the query and ingest endpoints)

External collaborators (the validators library, the filesystem, boto3/S3,
requests + BeautifulSoup, pypdf, the text splitter, OpenAI embeddings, FAISS
and the completion chain) are modelled as components of explicit environment
records; the control flow, dispatch order, string manipulation and state
updates owned by the repository are translated statement by statement.
Wall-clock fields (processing_time, latency values) are modelled only by
counting observation events, since real time is outside the embedding.
Python exceptions are modelled by the Except monad; an uncaught exception is
an error value threaded to the caller together with the mutated state.
-/

/-- Python exception values relevant to the embedded code. -/
inductive PyErr where
  | valueError (msg : String)
  | clientError (msg : String)
  | httpError (status : Nat) (msg : String)
  | otherError (msg : String)
deriving Repr, DecidableEq

/-- The str(e) text used when an exception is wrapped by an endpoint. -/
def pyErrMsg : PyErr → String
  | PyErr.valueError m => m
  | PyErr.clientError m => m
  | PyErr.httpError _ m => m
  | PyErr.otherError m => m

/-- Boolean success test for an Except value. -/
def exceptIsOk {E A : Type} : Except E A → Bool
  | Except.ok _ => true
  | Except.error _ => false

/-! ## Filesystem state for temporary files (information_loader.py) -/

/-- The name tempfile.NamedTemporaryFile hands out for the n-th temp file. -/
def tmpName (n : Nat) : String := "tmp" ++ toString n

/-- The part of the filesystem the loader mutates: which temporary local
copies currently exist, and a counter yielding fresh temp names. -/
structure FsState where
  tempFiles : List String
  nextTmp : Nat
deriving Repr, DecidableEq

/-! ## The environment of external collaborators used by InformationLoader -/

/-- External collaborators consumed by InformationLoader:
validators.url, os.path.exists, requests.get (body on 2xx, error otherwise),
the BeautifulSoup strip-scripts-and-get-text pipeline, pypdf page extraction
(one Option String per page, none for a page without text), plain UTF-8 file
reading, and the S3 download_file call. -/
structure LoaderEnv where
  urlValid : String → Bool
  pathExists : String → Bool
  fetchBody : String → Except PyErr String
  extractText : String → String
  pdfPages : String → Except PyErr (List (Option String))
  readLocal : String → Except PyErr String
  download : String → String → Except PyErr Unit

/-! Python string primitives, modelled over the character list of the
string so that they evaluate by kernel reduction. Python strings are
sequences of code points, which is exactly String.data. -/

/-- Python s.startswith(pre). -/
def pyStartsWith (s pre : String) : Bool := pre.data.isPrefixOf s.data

/-- Python s.endswith(suf). -/
def pyEndsWith (s suf : String) : Bool := suf.data.isSuffixOf s.data

/-- Python s[:n]. -/
def pyTake (s : String) (n : Nat) : String := String.mk (s.data.take n)

/-- Python s[n:]. -/
def pyDrop (s : String) (n : Nat) : String := String.mk (s.data.drop n)

/-- Split a character list at the first slash, when there is one. -/
def breakAtSlash : List Char → Option (List Char × List Char)
  | [] => none
  | c :: cs =>
      if c = '/' then some ([], cs)
      else match breakAtSlash cs with
           | none => none
           | some (a, b) => some (c :: a, b)

/-- Python path.split(sep, 1) for sep a slash: at most one split, at the
first separator; a string without the separator yields a one-element list. -/
def pySplitOnce (s : String) : List String :=
  match breakAtSlash s.data with
  | none => [s]
  | some (a, b) => [String.mk a, String.mk b]

/-- Error message raised by both query and _load_from_s3 guards. -/
def s3DisabledMsg : String := "S3 client is not initialized or S3 is unavailable."

/-- Error message of the zero-chunk ingestion failure (rag_pipeline.py line 101). -/
def emptyBatchMsg : String := "No valid text loaded from sources to create vector store."

/-- Error message of the not-initialized query guard (rag_pipeline.py line 175). -/
def notReadyMsg : String :=
  "Vector store or QA chain not initialized. Create the vector store first."

/-- The truncation marker appended by _load_from_web (information_loader.py line 187). -/
def truncationMarker : String := "... [truncated]"

/-- InformationLoader._load_from_pdf page filtering: keep pages whose
extract_text result is truthy (not None and not empty), stripped. -/
def pageTexts (pages : List (Option String)) : List String :=
  pages.filterMap (fun p => p.bind (fun t => if t = "" then none else some t.trim))

/-- InformationLoader._load_from_pdf (information_loader.py lines 195-218):
extract text page by page, skip pages yielding no text, join with a blank
line. Failures of the external reader propagate. -/
def loadFromPdf (env : LoaderEnv) (file_path : String) : Except PyErr String :=
  match env.pdfPages file_path with
  | Except.error e => Except.error e
  | Except.ok pages => Except.ok (String.intercalate "\n\n" (pageTexts pages))

/-- InformationLoader._load_from_web (information_loader.py lines 155-193):
fetch the body, strip markup via the external extractor, and truncate the
EXTRACTED text to 10000 characters with a marker when it is longer. -/
def loadFromWeb (env : LoaderEnv) (url : String) : Except PyErr String :=
  match env.fetchBody url with
  | Except.error e => Except.error e
  | Except.ok body =>
      let text := env.extractText body
      if text.length > 10000 then Except.ok (pyTake text 10000 ++ truncationMarker)
      else Except.ok text

/-- The extraction step of _load_from_s3 on the downloaded temporary copy
(information_loader.py lines 141-145): by key extension, PDF extraction or
a plain UTF-8 read. -/
def s3Extract (env : LoaderEnv) (key tmp_path : String) : Except PyErr String :=
  if pyEndsWith key ".pdf" then loadFromPdf env tmp_path
  else env.readLocal tmp_path

/-- InformationLoader._load_from_s3 (information_loader.py lines 113-153).
use_s3 and s3_client are the loader fields of the same names (s3_client
modelled by whether it is set). The temporary file is created by
NamedTemporaryFile with delete=False; os.unlink runs only after a
successful extraction, so a failing download or extraction leaves the
temporary copy in the filesystem state. -/
def loadFromS3 (env : LoaderEnv) (use_s3 s3_client : Bool) (fs : FsState)
    (s3_uri : String) : Except PyErr String × FsState :=
  if !use_s3 || !s3_client then
    (Except.error (PyErr.valueError s3DisabledMsg), fs)
  else
    match pySplitOnce (pyDrop s3_uri 5) with
    | [bucket, key] =>
        let tmp_path := tmpName fs.nextTmp
        let fs1 : FsState := { tempFiles := fs.tempFiles ++ [tmp_path], nextTmp := fs.nextTmp + 1 }
        (match env.download bucket key with
         | Except.error e => (Except.error e, fs1)
         | Except.ok _ =>
             match s3Extract env key tmp_path with
             | Except.error e => (Except.error e, fs1)
             | Except.ok c => (Except.ok c, { fs1 with tempFiles := fs1.tempFiles.erase tmp_path }))
    | _ => (Except.error (PyErr.valueError
        ("Invalid S3 URI format. " ++ s3_uri ++ " should be in the format s3://bucket/key")), fs)

/-- InformationLoader.load_information (information_loader.py lines 77-111):
classification and dispatch in source order; the surrounding try/except
logs and re-raises, so errors pass through unchanged. The final branch
returns the source string itself as direct text input. -/
def load_information (env : LoaderEnv) (use_s3 s3_client : Bool) (fs : FsState)
    (source : String) : Except PyErr String × FsState :=
  if pyStartsWith source "s3://" && use_s3 then
    loadFromS3 env use_s3 s3_client fs source
  else if env.urlValid source then (loadFromWeb env source, fs)
  else if pyEndsWith source ".pdf" then (loadFromPdf env source, fs)
  else if env.pathExists source then (env.readLocal source, fs)
  else (Except.ok source, fs)

/-! ## ProductionRAGPipeline (rag_pipeline.py) and the observability sink -/

/-- The metadata dict attached to each chunk (rag_pipeline.py lines 88-92). -/
structure ChunkMeta where
  source : String
  chunk_index : Nat
  source_type : String
deriving Repr, DecidableEq

/-- The FAISS vector store as the pipeline sees it: the texts and metadatas
it was built from (one entry per chunk). -/
structure VectorStore where
  texts : List String
  metadatas : List ChunkMeta
deriving Repr, DecidableEq

/-- The object load_qa_chain returns, summarized by its fixed prompt. -/
structure QAChain where
  prompt : String
deriving Repr, DecidableEq

/-- A document returned by similarity_search: page_content plus the
metadata entries query reads (absent keys modelled by none, matching the
metadata.get defaults in rag_pipeline.py lines 200-201). -/
structure Doc where
  page_content : String
  metaSource : Option String
  metaSourceType : Option String
deriving Repr, DecidableEq

/-- The mutable fields of a ProductionRAGPipeline instance: vector_store
and qa_chain, both None at construction (rag_pipeline.py lines 42-43). -/
structure PipelineState where
  vector_store : Option VectorStore
  qa_chain : Option QAChain
deriving Repr, DecidableEq

/-- The Prometheus metrics of observability.py: the two query counters, the
latency histogram (modelled by its number of observe calls), the token
counter and the vector-store-size gauge. -/
structure Metrics where
  queryCount : Nat
  queryErrors : Nat
  latencyObservations : Nat
  tokensUsed : Nat
  vectorStoreSize : Nat
deriving Repr, DecidableEq

/-- One entry of the sources list of a query response
(rag_pipeline.py lines 198-202). -/
structure SourceInfo where
  content_preview : String
  source : String
  source_type : String
deriving Repr, DecidableEq

/-- The response dict of ProductionRAGPipeline.query (rag_pipeline.py
lines 188-205); the sources key is present only when requested.
The wall-clock processing_time field is outside the embedding. -/
structure QueryResponse where
  answer : String
  tokens_used : Nat
  cost_estimate : Nat
  sources : Option (List SourceInfo)
deriving Repr, DecidableEq

/-- External collaborators of the pipeline: the loader environment, the
RecursiveCharacterTextSplitter, FAISS.from_texts (with the embedding
provider, hence fallible), similarity_search, the completion chain run
together with the OpenAI usage callback (answer, tokens, cost), and the
configured top_k. -/
structure RagEnv where
  loader : LoaderEnv
  splitText : String → List String
  faissBuild : List String → List ChunkMeta → Except PyErr VectorStore
  similaritySearch : VectorStore → String → Nat → List Doc
  runChain : QAChain → List Doc → String → Except PyErr (String × Nat × Nat)
  topK : Nat

/-- ProductionRAGPipeline.get_source_type (rag_pipeline.py lines 118-127). -/
def get_source_type (source : String) : String :=
  if pyStartsWith source "s3://" then "s3"
  else if pyStartsWith source "http://" || pyStartsWith source "https://" then "web"
  else "local"

/-- One pass of the inner chunk loop (rag_pipeline.py lines 86-92): append
the chunk, then record metadata whose chunk_index is len(all_texts) - 1
after the append, i.e. the global position of the chunk. -/
def appendChunk (source : String) (p : List String × List ChunkMeta) (chunk : String) :
    List String × List ChunkMeta :=
  let ts := p.1 ++ [chunk]
  (ts, p.2 ++ [{ source := source, chunk_index := ts.length - 1,
                 source_type := get_source_type source }])

/-- One iteration of the source loop of create_vector_store (rag_pipeline.py
lines 64-98): load, split, accumulate; any exception for this source is
caught, logged and the loop continues with the accumulator unchanged. -/
def processSource (env : RagEnv) (use_s3 s3_client : Bool)
    (st : (List String × List ChunkMeta) × FsState) (source : String) :
    (List String × List ChunkMeta) × FsState :=
  match load_information env.loader use_s3 s3_client st.2 source with
  | (Except.error _, fs1) => (st.1, fs1)
  | (Except.ok content, fs1) =>
      ((env.splitText content).foldl (appendChunk source) st.1, fs1)

/-- The whole source loop of create_vector_store: the accumulated
(all_texts, all_metadatas) and the filesystem state after all sources. -/
def accumulate (env : RagEnv) (use_s3 s3_client : Bool) (fs : FsState)
    (sources_list : List String) : (List String × List ChunkMeta) × FsState :=
  sources_list.foldl (processSource env use_s3 s3_client) (([], []), fs)

/-- The fixed prompt template of _create_qa_chain (rag_pipeline.py
lines 133-141). -/
def promptTemplate : String :=
  "You are a helpful assistant that answers questions based on the provided information. Use the following context to answer the question.\n\nContext:\n{context}\n\nQuestion: {question}\n\nAnswer in a concise and accurate manner, and only use the provided context to answer. If the answer is not in the context, say I do not know."

/-- ProductionRAGPipeline._create_qa_chain (rag_pipeline.py lines 129-157):
assigns the loaded chain to self.qa_chain (line 153) but has no return
statement, so its Python return value is None — modelled as the pair of
the returned value (none) and the mutated state. -/
def _create_qa_chain (st : PipelineState) : Option QAChain × PipelineState :=
  (none, { st with qa_chain := some { prompt := promptTemplate } })

/-- ProductionRAGPipeline.create_vector_store (rag_pipeline.py lines
50-116): run the source loop, raise ValueError when no chunks accumulated,
set the VECTOR_STORE_SIZE gauge, build the FAISS store (failures propagate
with no assignment to self.vector_store), then execute
self.qa_chain = self._create_qa_chain() — the method call first sets
qa_chain to the chain, and the assignment then overwrites it with the
None return value. -/
def create_vector_store (env : RagEnv) (use_s3 s3_client : Bool) (m : Metrics)
    (st : PipelineState) (fs : FsState) (sources_list : List String) :
    Except PyErr Unit × Metrics × PipelineState × FsState :=
  let acc := accumulate env use_s3 s3_client fs sources_list
  let all_texts := acc.1.1
  let fs1 := acc.2
  if all_texts.isEmpty then
    (Except.error (PyErr.valueError emptyBatchMsg), m, st, fs1)
  else
    let m1 : Metrics := { m with vectorStoreSize := all_texts.length }
    match env.faissBuild all_texts acc.1.2 with
    | Except.error e => (Except.error e, m1, st, fs1)
    | Except.ok vs =>
        let st1 : PipelineState := { st with vector_store := some vs }
        let r := _create_qa_chain st1
        let st2 : PipelineState := { r.2 with qa_chain := r.1 }
        (Except.ok (), m1, st2, fs1)

/-- The source attribution entry built for one retrieved document
(rag_pipeline.py lines 198-202). -/
def sourceInfoOfDoc (d : Doc) : SourceInfo :=
  { content_preview :=
      if d.page_content.length > 200 then pyTake d.page_content 200 ++ "..."
      else d.page_content,
    source := d.metaSource.getD "Unknown",
    source_type := d.metaSourceType.getD "Unknown" }

/-- ProductionRAGPipeline.query (rag_pipeline.py lines 159-212): raise
ValueError when vector_store or qa_chain is unset; otherwise retrieve
top_k documents, run the chain, add the token usage to the TOKENS_USED
counter, and attach the sources list exactly when return_sources is true.
Chain failures are logged and re-raised unchanged. -/
def query (env : RagEnv) (m : Metrics) (st : PipelineState)
    (question : String) (return_sources : Bool) :
    Except PyErr QueryResponse × Metrics :=
  match st.vector_store, st.qa_chain with
  | some vs, some chain =>
      let docs := env.similaritySearch vs question env.topK
      (match env.runChain chain docs question with
       | Except.error e => (Except.error e, m)
       | Except.ok (answer, tokens, cost) =>
           let m1 : Metrics := { m with tokensUsed := m.tokensUsed + tokens }
           let base : QueryResponse :=
             { answer := answer, tokens_used := tokens, cost_estimate := cost,
               sources := none }
           if return_sources then
             (Except.ok { base with sources := some (docs.map sourceInfoOfDoc) }, m1)
           else (Except.ok base, m1))
  | _, _ => (Except.error (PyErr.valueError notReadyMsg), m)

/-! ## observability.track_metrics and the endpoints of main.py -/

/-- observability.track_metrics (observability.py lines 18-33): call the
wrapped function; on success increment QUERY_COUNT, on exception increment
QUERY_ERRORS and re-raise; in both cases the finally block observes the
latency histogram exactly once. -/
def track_metrics {R : Type} (f : Metrics → Except PyErr R × Metrics) (m : Metrics) :
    Except PyErr R × Metrics :=
  let r := f m
  match r.1 with
  | Except.ok v =>
      (Except.ok v,
       { r.2 with queryCount := r.2.queryCount + 1,
                  latencyObservations := r.2.latencyObservations + 1 })
  | Except.error e =>
      (Except.error e,
       { r.2 with queryErrors := r.2.queryErrors + 1,
                  latencyObservations := r.2.latencyObservations + 1 })

/-- main.query_question body without its decorator (main.py lines 130-147):
503 when the pipeline global is unset; otherwise run the query and wrap
any exception into a 500 HTTPException with its text. -/
def query_question (env : RagEnv) (m : Metrics) (pst : Option PipelineState)
    (question : String) (return_sources : Bool) :
    Except PyErr QueryResponse × Metrics :=
  match pst with
  | none => (Except.error (PyErr.httpError 503 "RAG pipeline not initialized."), m)
  | some st =>
      match query env m st question return_sources with
      | (Except.ok r, m1) => (Except.ok r, m1)
      | (Except.error e, m1) => (Except.error (PyErr.httpError 500 (pyErrMsg e)), m1)

/-- The /query endpoint as deployed: query_question wrapped by the
track_metrics decorator (main.py lines 130-132). -/
def query_endpoint (env : RagEnv) (pst : Option PipelineState)
    (question : String) (return_sources : Bool) (m : Metrics) :
    Except PyErr QueryResponse × Metrics :=
  track_metrics (fun mm => query_question env mm pst question return_sources) m

/-- The response dict of the /ingest endpoint (main.py lines 170-175). -/
structure IngestResponse where
  status : String
  message : String
  sources_processed : Nat
  ingested_sources : List String
deriving Repr, DecidableEq

/-- main.ingest_sources (main.py lines 149-178): 503 when the pipeline is
unset; both branches call create_vector_store on the request sources and
differ only in the message; exceptions become a 500 HTTPException. The
success response reports only the count and the list of SUPPLIED sources. -/
def ingest_sources (env : RagEnv) (use_s3 s3_client : Bool) (m : Metrics)
    (pst : Option PipelineState) (fs : FsState) (sources : List String)
    (replace_existing : Bool) :
    Except PyErr IngestResponse × Metrics × Option PipelineState × FsState :=
  match pst with
  | none => (Except.error (PyErr.httpError 503 "RAG pipeline not initialized."), m, none, fs)
  | some st =>
      let r := create_vector_store env use_s3 s3_client m st fs sources
      match r.1 with
      | Except.error e => (Except.error (PyErr.httpError 500 (pyErrMsg e)), r.2.1, some r.2.2.1, r.2.2.2)
      | Except.ok _ =>
          (Except.ok
             { status := "success",
               message := if replace_existing then "Vector store replaced with new sources."
                          else "New sources added to existing vector store.",
               sources_processed := sources.length,
               ingested_sources := sources },
           r.2.1, some r.2.2.1, r.2.2.2)

/-! ## Concrete instantiations used by witnesses and counterexamples -/

/-- A world in which every descriptor is unrecognized: no valid URLs, no
existing paths, and every external fetch fails. -/
def rawEnv : LoaderEnv :=
  { urlValid := fun _ => false,
    pathExists := fun _ => false,
    fetchBody := fun _ => Except.error (PyErr.otherError "network"),
    extractText := fun b => b,
    pdfPages := fun _ => Except.error (PyErr.otherError "pdf"),
    readLocal := fun _ => Except.error (PyErr.otherError "io"),
    download := fun _ _ => Except.error (PyErr.clientError "s3") }

/-- A pipeline environment in which loading treats sources as raw text,
splitting yields one chunk per source, and all external services succeed. -/
def okRagEnv : RagEnv :=
  { loader := rawEnv,
    splitText := fun s => [s],
    faissBuild := fun ts ms => Except.ok { texts := ts, metadatas := ms },
    similaritySearch := fun vs _ _ =>
      vs.texts.map (fun t => { page_content := t, metaSource := none, metaSourceType := none }),
    runChain := fun _ _ _ => Except.ok ("answer", 7, 0),
    topK := 4 }

/-- Fresh Prometheus metrics (all counters at zero, gauge at its default). -/
def m0 : Metrics :=
  { queryCount := 0, queryErrors := 0, latencyObservations := 0,
    tokensUsed := 0, vectorStoreSize := 0 }

/-- A freshly constructed pipeline: no vector store, no QA chain. -/
def p0 : PipelineState := { vector_store := none, qa_chain := none }

/-- An empty temporary-file state. -/
def fs0 : FsState := { tempFiles := [], nextTmp := 0 }

/-- Environment whose splitter returns no chunks for any text. -/
def emptySplitEnv : RagEnv := { okRagEnv with splitText := fun _ => [] }

/-- Environment in which index construction (embedding plus FAISS) fails. -/
def envBuildFail : RagEnv :=
  { okRagEnv with faissBuild := fun _ _ => Except.error (PyErr.otherError "embedding failure") }

/-- Environment in which the descriptor b names an existing local file
whose read fails, while other descriptors fall through to raw text. -/
def envLoadFailB : RagEnv :=
  { okRagEnv with loader :=
      { rawEnv with pathExists := fun s => s == "b",
                    readLocal := fun _ => Except.error (PyErr.otherError "io") } }

/-- A pipeline that already holds an index from an earlier ingestion. -/
def vsPrev : VectorStore :=
  { texts := ["old"], metadatas := [{ source := "old", chunk_index := 0, source_type := "local" }] }

/-- Pipeline state holding the prior index vsPrev. -/
def pPrev : PipelineState := { vector_store := some vsPrev, qa_chain := none }

/-- Loader environment where the S3 download succeeds but PDF extraction
of the downloaded copy fails. -/
def s3EnvPdfFail : LoaderEnv :=
  { rawEnv with download := fun _ _ => Except.ok (),
                pdfPages := fun _ => Except.error (PyErr.otherError "pdf parse failure") }

/-- Loader environment where the S3 download and the plain-text read of
the temporary copy both succeed. -/
def s3EnvOk : LoaderEnv :=
  { rawEnv with download := fun _ _ => Except.ok (),
                readLocal := fun _ => Except.ok "file content" }

/-- An 10001-character response body. -/
def longBody : String := String.mk (List.replicate 10001 'a')

/-- Web environment whose markup stripper reduces a long body to a short
readable text, as BeautifulSoup does for script-heavy pages. -/
def webEnvStrip : LoaderEnv :=
  { rawEnv with fetchBody := fun _ => Except.ok longBody,
                extractText := fun _ => "Hello" }

/-- Web environment returning a short body with identity extraction. -/
def webEnvId : LoaderEnv :=
  { rawEnv with fetchBody := fun _ => Except.ok "abc", extractText := fun b => b }

/-! ## Shared helper lemmas -/

/-- The length of the Python prefix operation. -/
theorem pyTake_length (s : String) (n : Nat) : (pyTake s n).length = min n s.length := by
  unfold pyTake
  exact List.length_take n s.data

/-! ## C2 — object-storage descriptors with the backend disabled -/

/-- C2 counterexample: with the storage backend disabled, the descriptor
s3://bucket/notes.txt (which the URL validator rejects, has no .pdf suffix
and exists nowhere on disk) is returned verbatim by the raw-text identity
fallback instead of failing with a LoadError. -/
theorem c2_counterexample_s3_disabled_returns_raw_text :
    (pyStartsWith "s3://bucket/notes.txt" "s3://" = true) ∧
    load_information rawEnv false false fs0 "s3://bucket/notes.txt" =
      (Except.ok "s3://bucket/notes.txt", fs0) :=
  ⟨rfl, rfl⟩

/-- C2 amended: with the storage backend disabled, an s3:// descriptor is
not handled by the object-storage rule but falls through to the remaining
rules; when it matches none of them (invalid URL, no .pdf suffix, not an
existing path) load returns the descriptor string itself and does not fail. -/
theorem c2_amended_s3_disabled_falls_through (env : LoaderEnv) (s3_client : Bool)
    (fs : FsState) (source : String)
    (_hs3 : pyStartsWith source "s3://" = true)
    (hurl : env.urlValid source = false)
    (hpdf : pyEndsWith source ".pdf" = false)
    (hex : env.pathExists source = false) :
    load_information env false s3_client fs source = (Except.ok source, fs) := by
  unfold load_information
  simp [hurl, hpdf, hex]

/-- C2 amended witness at the concrete descriptor s3://b/k.txt. -/
theorem c2_amended_witness :
    (pyStartsWith "s3://b/k.txt" "s3://" = true) ∧
    rawEnv.urlValid "s3://b/k.txt" = false ∧
    (pyEndsWith "s3://b/k.txt" ".pdf" = false) ∧
    rawEnv.pathExists "s3://b/k.txt" = false ∧
    load_information rawEnv false true fs0 "s3://b/k.txt" =
      (Except.ok "s3://b/k.txt", fs0) :=
  ⟨by decide, rfl, by decide, rfl,
   c2_amended_s3_disabled_falls_through rawEnv true fs0 "s3://b/k.txt" (by decide) rfl (by decide) rfl⟩

/-! ## C9 — raw-text identity fallback -/

/-- C9: every string that is not an enabled object-storage URI, not a
valid URL, has no PDF suffix and is not an existing path is returned
unchanged by load_information, which does not fail on it. -/
theorem c9_raw_text_identity_fallback (env : LoaderEnv) (use_s3 s3_client : Bool)
    (fs : FsState) (s : String)
    (hns3 : (pyStartsWith s "s3://" && use_s3) = false)
    (hurl : env.urlValid s = false)
    (hpdf : pyEndsWith s ".pdf" = false)
    (hex : env.pathExists s = false) :
    load_information env use_s3 s3_client fs s = (Except.ok s, fs) := by
  unfold load_information
  simp [hns3, hurl, hpdf, hex]

/-- C9 witness on a concrete plain-text source with S3 enabled. -/
theorem c9_witness :
    ((pyStartsWith "just some plain text" "s3://" && true) = false) ∧
    rawEnv.urlValid "just some plain text" = false ∧
    (pyEndsWith "just some plain text" ".pdf" = false) ∧
    rawEnv.pathExists "just some plain text" = false ∧
    load_information rawEnv true true fs0 "just some plain text" =
      (Except.ok "just some plain text", fs0) :=
  ⟨by decide, rfl, by decide, rfl,
   c9_raw_text_identity_fallback rawEnv true true fs0 "just some plain text"
     (by decide) rfl (by decide) rfl⟩

/-! ## C6 — temporary copies of object-storage loads -/

/-- C6 counterexample: downloading s3://b/doc.pdf succeeds, the PDF
extraction of the temporary copy fails, and the temporary file tmp0 is
left behind in the filesystem state — it is not deleted on this exit path. -/
theorem c6_counterexample_temp_file_leaks_on_failed_extraction :
    (loadFromS3 s3EnvPdfFail true true fs0 "s3://b/doc.pdf").1 =
      Except.error (PyErr.otherError "pdf parse failure") ∧
    (loadFromS3 s3EnvPdfFail true true fs0 "s3://b/doc.pdf").2.tempFiles = [tmpName 0] :=
  ⟨rfl, rfl⟩

/-- C6 amended: the temporary local copy is deleted when the extraction
succeeds; a failing extraction (or download) leaves it on disk. -/
theorem c6_amended_temp_file_deleted_on_success (env : LoaderEnv)
    (use_s3 s3_client : Bool) (fs : FsState) (uri content : String)
    (hfresh : tmpName fs.nextTmp ∉ fs.tempFiles)
    (h : (loadFromS3 env use_s3 s3_client fs uri).1 = Except.ok content) :
    ((loadFromS3 env use_s3 s3_client fs uri).2).tempFiles = fs.tempFiles := by
  unfold loadFromS3 at h ⊢
  by_cases hg : (!use_s3 || !s3_client) = true
  · rw [if_pos hg] at h
    simp at h
  · rw [if_neg hg] at h ⊢
    rcases hp : pySplitOnce (pyDrop uri 5) with _ | ⟨b, _ | ⟨k, _ | ⟨x, xs⟩⟩⟩
    · simp only [hp] at h
      simp at h
    · simp only [hp] at h
      simp at h
    · simp only [hp] at h ⊢
      rcases hd : env.download b k with e | u
      · simp only [hd] at h
        simp at h
      · simp only [hd] at h ⊢
        rcases hc : s3Extract env k (tmpName fs.nextTmp) with e | c
        · simp only [hc] at h
          simp at h
        · simp only [hc]
          rw [List.erase_append_right _ hfresh, List.erase_cons_head, List.append_nil]
    · simp only [hp] at h
      simp at h

/-- C6 amended witness: a successful plain-text S3 load deletes its
temporary copy, restoring the initial filesystem state. -/
theorem c6_amended_witness :
    (tmpName fs0.nextTmp ∉ fs0.tempFiles) ∧
    (loadFromS3 s3EnvOk true true fs0 "s3://b/k.txt").1 = Except.ok "file content" ∧
    ((loadFromS3 s3EnvOk true true fs0 "s3://b/k.txt").2).tempFiles = fs0.tempFiles :=
  ⟨by simp [fs0], rfl,
   c6_amended_temp_file_deleted_on_success s3EnvOk true true fs0 "s3://b/k.txt"
     "file content" (by simp [fs0]) rfl⟩

/-! ## C7 — web truncation boundary -/

/-- C7 counterexample: a fetch whose body has 10001 characters but whose
extracted readable text is the 5-character string Hello is returned
untruncated and without the marker, because the code truncates on the
length of the extracted text, not of the body. -/
theorem c7_counterexample_truncation_not_keyed_on_body :
    webEnvStrip.fetchBody "http://x" = Except.ok longBody ∧
    longBody.length = 10001 ∧
    loadFromWeb webEnvStrip "http://x" = Except.ok "Hello" ∧
    "Hello".length ≤ 10000 := by
  refine ⟨rfl, ?_, rfl, by decide⟩
  show (List.replicate 10001 'a').length = 10001
  exact List.length_replicate 10001 'a'

/-- C7 amended: truncation is keyed on the extracted text: when the
extracted text of a fetched body exceeds 10000 characters the result is
exactly its first 10000 characters followed by the truncation marker,
and when it is at most 10000 characters it is returned unchanged. -/
theorem c7_amended_truncation_on_extracted_text (env : LoaderEnv) (url body : String)
    (h : env.fetchBody url = Except.ok body) :
    (10000 < (env.extractText body).length →
       loadFromWeb env url =
         Except.ok (pyTake (env.extractText body) 10000 ++ truncationMarker) ∧
       (pyTake (env.extractText body) 10000).length = 10000) ∧
    ((env.extractText body).length ≤ 10000 →
       loadFromWeb env url = Except.ok (env.extractText body)) := by
  constructor
  · intro hlong
    constructor
    · unfold loadFromWeb
      rw [h]
      simp [hlong]
    · rw [pyTake_length]
      omega
  · intro hshort
    unfold loadFromWeb
    rw [h]
    simp
    omega

/-- C7 amended witness on a 3-character body with identity extraction. -/
theorem c7_amended_witness :
    (10000 < (webEnvId.extractText "abc").length →
       loadFromWeb webEnvId "http://x" =
         Except.ok (pyTake (webEnvId.extractText "abc") 10000 ++ truncationMarker) ∧
       (pyTake (webEnvId.extractText "abc") 10000).length = 10000) ∧
    ((webEnvId.extractText "abc").length ≤ 10000 →
       loadFromWeb webEnvId "http://x" = Except.ok (webEnvId.extractText "abc")) :=
  c7_amended_truncation_on_extracted_text webEnvId "http://x" "abc" rfl



/-! ## C1 — query readiness before and after a successful build -/

/-- C1: a query on a fresh pipeline fails with the not-ready ValueError;
but a query AFTER a create_vector_store call that completed successfully
fails with the very same error instead of proceeding to retrieval,
because create_vector_store assigns the None return value of
_create_qa_chain back to qa_chain. This evaluates the code at the
failing input (one raw-text source, then a query). -/
theorem c1_query_still_not_ready_after_successful_build :
    (query okRagEnv m0 p0 "q" true).1 = Except.error (PyErr.valueError notReadyMsg) ∧
    (create_vector_store okRagEnv false false m0 p0 fs0 ["hello world"]).1 = Except.ok () ∧
    ((create_vector_store okRagEnv false false m0 p0 fs0 ["hello world"]).2.2.1).vector_store =
      some { texts := ["hello world"],
             metadatas := [{ source := "hello world", chunk_index := 0, source_type := "local" }] } ∧
    ((create_vector_store okRagEnv false false m0 p0 fs0 ["hello world"]).2.2.1).qa_chain = none ∧
    (query okRagEnv m0
        ((create_vector_store okRagEnv false false m0 p0 fs0 ["hello world"]).2.2.1) "q" true).1 =
      Except.error (PyErr.valueError notReadyMsg) :=
  ⟨rfl, rfl, rfl, rfl, rfl⟩

/-! ## C3 — failed ingestion leaves the index untouched -/

/-- C3: whenever create_vector_store fails — with the zero-chunk
ValueError or with an error propagated from index construction — the
vector_store reference of the pipeline is exactly what it was before the
call; the previous index, if any, remains authoritative. -/
theorem c3_failed_ingestion_preserves_index (env : RagEnv) (use_s3 s3_client : Bool)
    (m : Metrics) (st : PipelineState) (fs : FsState) (srcs : List String) (e : PyErr)
    (h : (create_vector_store env use_s3 s3_client m st fs srcs).1 = Except.error e) :
    ((create_vector_store env use_s3 s3_client m st fs srcs).2.2.1).vector_store =
      st.vector_store := by
  unfold create_vector_store at h ⊢
  by_cases hemp : (accumulate env use_s3 s3_client fs srcs).1.1.isEmpty
  · simp [hemp]
  · simp only [hemp] at h ⊢
    rcases hb : env.faissBuild (accumulate env use_s3 s3_client fs srcs).1.1
        (accumulate env use_s3 s3_client fs srcs).1.2 with e2 | vs
    · simp [hb]
    · simp only [hb, Bool.false_eq_true, if_false] at h
      simp at h

/-- C3 witness: with a splitter producing no chunks, ingestion fails with
the zero-chunk error and a pre-existing index is preserved. -/
theorem c3_witness :
    (create_vector_store emptySplitEnv false false m0 pPrev fs0 ["x"]).1 =
      Except.error (PyErr.valueError emptyBatchMsg) ∧
    ((create_vector_store emptySplitEnv false false m0 pPrev fs0 ["x"]).2.2.1).vector_store =
      pPrev.vector_store :=
  ⟨rfl,
   c3_failed_ingestion_preserves_index emptySplitEnv false false m0 pPrev fs0 ["x"]
     (PyErr.valueError emptyBatchMsg) rfl⟩

/-! ## C4 — what ingestion reports -/

/-- C4 counterexample: the batch [a, b] where b fails to load produces
chunks only from a, yet the ingest endpoint returns exactly the same
response as for the batch in which both sources succeed: status success,
sources_processed = 2 and the full supplied list — no chunk count and no
failed-source list is reported seen from the caller. -/
theorem c4_counterexample_report_does_not_distinguish_failures :
    (accumulate okRagEnv false false fs0 ["a", "b"]).1.1.length = 2 ∧
    (accumulate envLoadFailB false false fs0 ["a", "b"]).1.1.length = 1 ∧
    (ingest_sources okRagEnv false false m0 (some p0) fs0 ["a", "b"] true).1 =
      (ingest_sources envLoadFailB false false m0 (some p0) fs0 ["a", "b"] true).1 ∧
    (ingest_sources envLoadFailB false false m0 (some p0) fs0 ["a", "b"] true).1 =
      Except.ok { status := "success", message := "Vector store replaced with new sources.",
                  sources_processed := 2, ingested_sources := ["a", "b"] } :=
  ⟨rfl, rfl, rfl, rfl⟩

/-- C4 amended: create_vector_store returns no build report (its Python
return value is None), and the ingest endpoint response is a function of
the supplied source list and the replace flag alone: a fixed success
status and message, the count of supplied sources and the supplied list —
never chunk counts or failed sources. -/
theorem c4_amended_ingest_reports_only_supplied_sources (env : RagEnv)
    (use_s3 s3_client : Bool) (m : Metrics) (st : PipelineState) (fs : FsState)
    (sources : List String) (replace_existing : Bool) :
    (ingest_sources env use_s3 s3_client m (some st) fs sources replace_existing).1 =
      (match (create_vector_store env use_s3 s3_client m st fs sources).1 with
       | Except.ok _ => Except.ok
           { status := "success",
             message := if replace_existing then "Vector store replaced with new sources."
                        else "New sources added to existing vector store.",
             sources_processed := sources.length, ingested_sources := sources }
       | Except.error e => Except.error (PyErr.httpError 500 (pyErrMsg e))) := by
  unfold ingest_sources
  rcases h : (create_vector_store env use_s3 s3_client m st fs sources).1 with e | u
  · simp only [h]
  · simp only [h]

/-! ## C5 — the index-size gauge -/

/-- C5 counterexample: with one chunk accumulated and an index
construction that fails, the call fails but the VECTOR_STORE_SIZE gauge
has been moved from 0 to 1 — it is not left unchanged on this failing
ingestion call. -/
theorem c5_counterexample_gauge_set_despite_build_failure :
    (create_vector_store envBuildFail false false m0 p0 fs0 ["hello"]).1 =
      Except.error (PyErr.otherError "embedding failure") ∧
    m0.vectorStoreSize = 0 ∧
    ((create_vector_store envBuildFail false false m0 p0 fs0 ["hello"]).2.1).vectorStoreSize = 1 :=
  ⟨rfl, rfl, rfl⟩

/-- C5 amended: the gauge is set to the accumulated chunk count before
index construction: every call that accumulates at least one chunk
updates it — including calls that subsequently fail during index
construction — while a call that accumulates zero chunks (the
EmptyBatchError case) leaves the metrics unchanged. -/
theorem c5_amended_gauge_set_iff_chunks_accumulated (env : RagEnv)
    (use_s3 s3_client : Bool) (m : Metrics) (st : PipelineState) (fs : FsState)
    (srcs : List String) :
    (create_vector_store env use_s3 s3_client m st fs srcs).2.1 =
      (if (accumulate env use_s3 s3_client fs srcs).1.1.isEmpty then m
       else { m with vectorStoreSize := (accumulate env use_s3 s3_client fs srcs).1.1.length }) := by
  unfold create_vector_store
  by_cases hemp : (accumulate env use_s3 s3_client fs srcs).1.1.isEmpty
  · simp [hemp]
  · simp only [hemp, Bool.false_eq_true, if_false]
    rcases hb : env.faissBuild (accumulate env use_s3 s3_client fs srcs).1.1
        (accumulate env use_s3 s3_client fs srcs).1.2 with e | vs
    · simp [hb]
    · simp [hb]

/-! ## C8 — source attribution of query responses -/

/-- Every content preview built by the pipeline is at most 203 characters:
the full chunk text when it has at most 200 characters, otherwise its
first 200 characters plus the 3-character ellipsis. -/
theorem sourceInfoOfDoc_preview_length (d : Doc) :
    (sourceInfoOfDoc d).content_preview.length ≤ 203 := by
  unfold sourceInfoOfDoc
  by_cases hl : d.page_content.length > 200
  · simp only [hl, if_true]
    rw [String.length_append, pyTake_length]
    have h3 : ("..." : String).length = 3 := rfl
    omega
  · simp only [hl, if_false]
    omega

/-- C8: for every successful query, the sources field is present exactly
when attribution was requested; when present it is the image of the
retrieved documents under sourceInfoOfDoc in retrieval order (one entry
per retrieved chunk), every preview is the full chunk text when at most
200 characters and its first 200 characters plus an ellipsis otherwise,
and every preview is at most 203 characters long. -/
theorem c8_sources_iff_requested_with_bounded_previews (env : RagEnv) (m : Metrics)
    (st : PipelineState) (question : String) (return_sources : Bool)
    (vs : VectorStore) (chain : QAChain) (resp : QueryResponse) (m1 : Metrics)
    (hvs : st.vector_store = some vs) (hch : st.qa_chain = some chain)
    (h : query env m st question return_sources = (Except.ok resp, m1)) :
    (resp.sources.isSome = return_sources) ∧
    (∀ l, resp.sources = some l →
      l = (env.similaritySearch vs question env.topK).map sourceInfoOfDoc ∧
      l.length = (env.similaritySearch vs question env.topK).length ∧
      (∀ si ∈ l, si.content_preview.length ≤ 203)) ∧
    (∀ d : Doc, (sourceInfoOfDoc d).content_preview =
      (if d.page_content.length > 200 then pyTake d.page_content 200 ++ "..."
       else d.page_content)) := by
  rcases st with ⟨vsf, chf⟩
  simp only at hvs hch
  subst hvs
  subst hch
  unfold query at h
  simp only at h
  rcases hr : env.runChain chain (env.similaritySearch vs question env.topK) question
    with e | ⟨a, t, c⟩
  · rw [hr] at h
    simp at h
  · rw [hr] at h
    rcases return_sources with _ | _
    · simp only [Bool.false_eq_true, if_false] at h
      injection h with h1 h2
      injection h1 with h1
      subst h1
      refine ⟨rfl, ?_, fun d => rfl⟩
      intro l hl
      exact absurd hl (by simp)
    · simp only [if_true] at h
      injection h with h1 h2
      injection h1 with h1
      subst h1
      refine ⟨rfl, ?_, fun d => rfl⟩
      intro l hl
      injection hl with hl
      subst hl
      refine ⟨rfl, List.length_map _ _, ?_⟩
      intro si hsi
      rcases List.mem_map.mp hsi with ⟨d, _, hd⟩
      subst hd
      exact sourceInfoOfDoc_preview_length d

/-- A retrieval result of three documents, one of them 250 characters. -/
def doc1 : Doc := { page_content := "short text", metaSource := some "srcA", metaSourceType := some "local" }

/-- A 250-character retrieved document. -/
def doc2 : Doc := { page_content := String.mk (List.replicate 250 'x'), metaSource := some "srcB", metaSourceType := some "web" }

/-- A retrieved document with empty content and no metadata keys. -/
def doc3 : Doc := { page_content := "", metaSource := none, metaSourceType := none }

/-- Pipeline environment whose retrieval returns the three documents. -/
def env3 : RagEnv := { okRagEnv with similaritySearch := fun _ _ _ => [doc1, doc2, doc3] }

/-- A one-chunk vector store. -/
def vsC : VectorStore := { texts := ["t"], metadatas := [] }

/-- The QA chain object with the fixed prompt. -/
def chainC : QAChain := { prompt := promptTemplate }

/-- A ready pipeline state (index and chain both present). -/
def stC : PipelineState := { vector_store := some vsC, qa_chain := some chainC }

/-- The response the ready pipeline produces for the three documents. -/
def respC : QueryResponse :=
  { answer := "answer", tokens_used := 7, cost_estimate := 0,
    sources := some ([doc1, doc2, doc3].map sourceInfoOfDoc) }

/-- Metrics after that response: 7 tokens counted. -/
def m1C : Metrics := { m0 with tokensUsed := 7 }

/-- C8 witness: a ready pipeline, attribution requested, three retrieved
chunks, exactly three source entries with bounded previews. -/
theorem c8_witness :
    stC.vector_store = some vsC ∧ stC.qa_chain = some chainC ∧
    query env3 m0 stC "q" true = (Except.ok respC, m1C) ∧
    ((respC.sources.isSome = true) ∧
     (∀ l, respC.sources = some l →
       l = (env3.similaritySearch vsC "q" env3.topK).map sourceInfoOfDoc ∧
       l.length = (env3.similaritySearch vsC "q" env3.topK).length ∧
       (∀ si ∈ l, si.content_preview.length ≤ 203)) ∧
     (∀ d : Doc, (sourceInfoOfDoc d).content_preview =
       (if d.page_content.length > 200 then pyTake d.page_content 200 ++ "..."
        else d.page_content))) :=
  ⟨rfl, rfl, rfl,
   c8_sources_iff_requested_with_bounded_previews env3 m0 stC "q" true vsC chainC
     respC m1C rfl rfl rfl⟩

/-! ## C10 — the metrics wrapper of the query endpoint -/

/-- ProductionRAGPipeline.query only increments the token counter: it
does not touch the query counters or the latency histogram. -/
theorem query_preserves_endpoint_counters (env : RagEnv) (m : Metrics)
    (st : PipelineState) (q : String) (rs : Bool) :
    (query env m st q rs).2.queryCount = m.queryCount ∧
    (query env m st q rs).2.queryErrors = m.queryErrors ∧
    (query env m st q rs).2.latencyObservations = m.latencyObservations := by
  unfold query
  rcases st with ⟨vsf, chf⟩
  rcases vsf with _ | vs
  · simp
  · rcases chf with _ | ch
    · simp
    · simp only
      rcases hr : env.runChain ch (env.similaritySearch vs q env.topK) q with e | ⟨a, t, c⟩
      · simp [hr]
      · rcases rs with _ | _ <;> simp [hr]

/-- The query_question endpoint body inherits the frame property: it
never touches the query counters or the latency histogram. -/
theorem query_question_preserves_endpoint_counters (env : RagEnv) (m : Metrics)
    (pst : Option PipelineState) (q : String) (rs : Bool) :
    (query_question env m pst q rs).2.queryCount = m.queryCount ∧
    (query_question env m pst q rs).2.queryErrors = m.queryErrors ∧
    (query_question env m pst q rs).2.latencyObservations = m.latencyObservations := by
  unfold query_question
  rcases pst with _ | st
  · simp
  · have hq := query_preserves_endpoint_counters env m st q rs
    rcases hqe : query env m st q rs with ⟨r, m1⟩
    rw [hqe] at hq
    simp only at hq
    rcases r with e | v <;> simp [hqe, hq.1, hq.2.1, hq.2.2]

/-- C10: every invocation of the wrapped query endpoint observes the
latency histogram exactly once, increments the query counter exactly when
the call returns successfully, and increments the query-error counter
exactly when it raises — so each call increments exactly one of the two
counters. -/
theorem c10_wrapper_observes_once_and_counts_outcome (env : RagEnv)
    (pst : Option PipelineState) (q : String) (rs : Bool) (m : Metrics) :
    ((query_endpoint env pst q rs m).2.latencyObservations = m.latencyObservations + 1) ∧
    ((query_endpoint env pst q rs m).2.queryCount =
       m.queryCount + (if exceptIsOk (query_endpoint env pst q rs m).1 then 1 else 0)) ∧
    ((query_endpoint env pst q rs m).2.queryErrors =
       m.queryErrors + (if exceptIsOk (query_endpoint env pst q rs m).1 then 0 else 1)) := by
  unfold query_endpoint track_metrics
  have hf := query_question_preserves_endpoint_counters env m pst q rs
  rcases hq : query_question env m pst q rs with ⟨r, m1⟩
  rw [hq] at hf
  simp only at hf
  rcases r with e | v <;>
    simp [hq, exceptIsOk, hf.1, hf.2.1, hf.2.2]
